import Mathlib

/-!
Verification of the init builtin command core (`src/init/builtins.cpp`) and the
device-mapper ioctl helpers (`src/fs_mgr/fs_mgr_dm_ioctl.cpp`).

The C++ code is embedded shallowly as pure Lean functions.  Side-effecting
calls (property writes, event-trigger queueing, shutdown requests, loop-device
ioctls, mount syscalls, service start calls) are recorded in an explicit
effect trace; the outcome of each external primitive (fs_mgr, fscrypt, gsi,
kernel ioctls) is supplied by an oracle environment `Env`, so every branch of
the source can be exercised.
-/

namespace InitCore

/-- One observable side effect of a builtin command, in execution order. -/
inductive Effect where
  | setProperty (key value : String)
  | queueEventTrigger (event : String)
  | triggerShutdown (reason : String)
  | writeBootloaderMessage (options : List String)
  | installKeyring
  | remountUserdataIntoCheckpointing
  | waitForFile (path : String)
  | loopOpen (n : Nat)
  | loopGetStatus (n : Nat)
  | loopSetFd (n : Nat)
  | loopClrFd (n : Nat)
  | mount (source target system : String) (flags : Nat) (options : Option String)
  | startIfNotDisabled (service : String)
  | logStartFailure (service : String)
  | restartService (service : String)
  deriving Repr, DecidableEq

/-- Result of a builtin handler, mirroring `Result<void>` plus the
fatal-shutdown escalation path.  `errnoErr` is an `ErrnoError`: an error
carrying the captured errno value together with its message. -/
inductive BResult where
  | ok
  | err (msg : String)
  | errnoErr (msg : String) (errnoCode : Nat)
  | shutdown (reason : String)
  deriving Repr, DecidableEq

/-- errno value ENOENT (no such file or directory), from the kernel ABI. -/
def ENOENT : Nat := 2

/-- errno value ENXIO (no such device or address), from the kernel ABI. -/
def ENXIO : Nat := 6

/-- `android::base::LogSeverity` as integers (VERBOSE = 0, DEBUG = 1, INFO = 2,
WARNING = 3, ERROR = 4, ...); only DEBUG is compared against by the code. -/
def DEBUG_SEVERITY : Nat := 1

/-- Modelled from the spec: the numeric values of the `FS_MGR_MNTALL_*`
outcome codes come from `fs_mgr.h`, which is not under `src/`; the spec
describes a closed set of non-negative enumerated outcome codes, with error
outcomes negative.  The claims depend only on the codes being pairwise
distinct non-negative integers forming the enumerated set. -/
def FS_MGR_MNTALL_DEV_NEEDS_METADATA_ENCRYPTION : Int := 7

def FS_MGR_MNTALL_DEV_IS_METADATA_ENCRYPTED : Int := 6

def FS_MGR_MNTALL_DEV_FILE_ENCRYPTED : Int := 5

def FS_MGR_MNTALL_DEV_NEEDS_RECOVERY : Int := 4

def FS_MGR_MNTALL_DEV_NEEDS_ENCRYPTION : Int := 3

def FS_MGR_MNTALL_DEV_MIGHT_BE_ENCRYPTED : Int := 2

def FS_MGR_MNTALL_DEV_NOT_ENCRYPTED : Int := 1

def FS_MGR_MNTALL_DEV_NOT_ENCRYPTABLE : Int := 0

/-- Modelled from the spec: values of the `MS_*` mount flags come from the
kernel headers (`sys/mount.h`), not under `src/`.  Only the name→bit table
structure matters to the claims; the values are the Linux ABI ones. -/
def MS_RDONLY : Nat := 1

def MS_NOSUID : Nat := 2

def MS_NODEV : Nat := 4

def MS_NOEXEC : Nat := 8

def MS_REMOUNT : Nat := 32

def MS_NOATIME : Nat := 1024

def MS_NODIRATIME : Nat := 2048

def MS_BIND : Nat := 4096

def MS_REC : Nat := 16384

def MS_UNBINDABLE : Nat := 131072

def MS_PRIVATE : Nat := 262144

def MS_SLAVE : Nat := 524288

def MS_SHARED : Nat := 1048576

/-- Oracle environment: outcomes of the external primitives the builtins call.
Field order: minLogSeverity, gsiRunning, isPid1, writeBootloaderOk,
installKeyringOk, readFstabOk, readDefaultFstabOk, fsMgrMountAllCode,
mountAllDuration, remountUserdataRc, backingOpenErrno, loopOpenErrno,
loopStatusErrno, loopSetFdOk, mountErrno, getBoolProperty,
startIfNotDisabledOk. -/
structure Env where
  /-- `android::base::GetMinimumLogSeverity()` (as an integer level). -/
  minLogSeverity : Nat
  /-- `android::gsi::IsGsiRunning()`. -/
  gsiRunning : Bool
  /-- `getpid() == 1` inside `reboot_into_recovery`. -/
  isPid1 : Bool
  /-- `write_bootloader_message(options, &err)` succeeds. -/
  writeBootloaderOk : Bool
  /-- `FscryptInstallKeyring()` succeeds. -/
  installKeyringOk : Bool
  /-- `ReadFstabFromFile` succeeds in `do_mount_all`. -/
  readFstabOk : Bool
  /-- `ReadDefaultFstab` succeeds in `do_remount_userdata`. -/
  readDefaultFstabOk : Bool
  /-- return code of `fs_mgr_mount_all`. -/
  fsMgrMountAllCode : Int
  /-- the wall-clock duration string written to the boot-time property. -/
  mountAllDuration : String
  /-- return code of `fs_mgr_remount_userdata_into_checkpointing`. -/
  remountUserdataRc : Int
  /-- errno from opening the loop backing file, `none` on success. -/
  backingOpenErrno : Option Nat
  /-- errno from `open("/dev/block/loopN")`, `none` on success. -/
  loopOpenErrno : Nat → Option Nat
  /-- errno from `ioctl(loopN, LOOP_GET_STATUS)`: `none` = success (device
  bound); `some ENXIO` = blank (unbound) device. -/
  loopStatusErrno : Nat → Option Nat
  /-- `ioctl(loopN, LOOP_SET_FD, fd) >= 0`. -/
  loopSetFdOk : Nat → Bool
  /-- errno from the `mount` syscall, `none` on success. -/
  mountErrno : Option Nat
  /-- `android::base::GetBoolProperty(key, false)`. -/
  getBoolProperty : String → Bool
  /-- `service->StartIfNotDisabled()` succeeds. -/
  startIfNotDisabledOk : String → Bool

/-- `ErrnoErrorIgnoreEnoent()` materialised as a `Result<void>`: an ENOENT
failure is converted into an empty success value when the minimum log
severity is above DEBUG; every other errno stays an errno-carrying error. -/
def errnoErrorIgnoreEnoent (env : Env) (e : Nat) (msg : String) : BResult :=
  if e = ENOENT ∧ DEBUG_SEVERITY < env.minLogSeverity then BResult.ok
  else BResult.errnoErr msg e

/-- The static `mount_flags[]` name→bit table (without the null sentinel). -/
def mount_flags : List (String × Nat) :=
  [("noatime", MS_NOATIME),
   ("noexec", MS_NOEXEC),
   ("nosuid", MS_NOSUID),
   ("nodev", MS_NODEV),
   ("nodiratime", MS_NODIRATIME),
   ("ro", MS_RDONLY),
   ("rw", 0),
   ("remount", MS_REMOUNT),
   ("bind", MS_BIND),
   ("rec", MS_REC),
   ("unbindable", MS_UNBINDABLE),
   ("private", MS_PRIVATE),
   ("slave", MS_SLAVE),
   ("shared", MS_SHARED),
   ("defaults", 0)]

/-- Accumulated mount-argument parse state: the option string, the flag
bitset, and the `wait` modifier. -/
structure MountParse where
  options : Option String
  flags : Nat
  waitFlag : Bool
  deriving Repr, DecidableEq

/-- The `for (size_t na = 4; ...)` argument loop of `do_mount`: each argument
is matched against `mount_flags`; an unmatched `"wait"` sets the wait
modifier; an unmatched final argument becomes the option string; any other
unmatched argument falls through with no action. -/
def parseMountGo : List String → MountParse → MountParse
  | [], acc => acc
  | a :: tl, acc =>
    match List.find? (fun p => p.fst == a) mount_flags with
    | some p => parseMountGo tl (MountParse.mk acc.options (acc.flags ||| p.snd) acc.waitFlag)
    | none =>
      if a = "wait" then parseMountGo tl (MountParse.mk acc.options acc.flags true)
      else if tl = [] then parseMountGo tl (MountParse.mk (some a) acc.flags acc.waitFlag)
      else parseMountGo tl acc

/-- Parse the arguments of `mount <type> <device> <path> <flags ...> <options>`:
the argument loop starts at index 4 of the raw argument list (index 0 is the
command name itself). -/
def parseMountArgs (args : List String) : MountParse :=
  parseMountGo (args.drop 4) (MountParse.mk none 0 false)

/-- The unbounded `loop@` device scan of `do_mount`, embedded with explicit
fuel (the C++ loop has no bound of its own; `none` models the scan still
running when the fuel runs out).  For each index `n` the scan opens
`/dev/block/loopN`, queries `LOOP_GET_STATUS`, and on a blank device
(status query fails with ENXIO) attempts `LOOP_SET_FD`; only after a
successful bind is the mount attempted, with the loop device as source. -/
def loopMountScan (env : Env) (fuel : Nat) (n : Nat) (target system : String)
    (flags : Nat) (options : Option String) : List Effect × Option BResult :=
  match fuel with
  | 0 => ([], none)
  | Nat.succ fuel =>
    match env.loopOpenErrno n with
    | some e => ([Effect.loopOpen n], some (BResult.errnoErr "open() failed" e))
    | none =>
      let devPath := "/dev/block/loop" ++ toString n
      if env.loopStatusErrno n = some ENXIO then
        if env.loopSetFdOk n then
          match env.mountErrno with
          | some e =>
            ([Effect.loopOpen n, Effect.loopGetStatus n, Effect.loopSetFd n,
              Effect.mount devPath target system flags options, Effect.loopClrFd n],
             some (BResult.errnoErr "mount() failed" e))
          | none =>
            ([Effect.loopOpen n, Effect.loopGetStatus n, Effect.loopSetFd n,
              Effect.mount devPath target system flags options], some BResult.ok)
        else
          let r := loopMountScan env fuel (n + 1) target system flags options
          (Effect.loopOpen n :: Effect.loopGetStatus n :: Effect.loopSetFd n :: r.fst, r.snd)
      else
        let r := loopMountScan env fuel (n + 1) target system flags options
        (Effect.loopOpen n :: Effect.loopGetStatus n :: r.fst, r.snd)

/-- `android::base::StartsWith`, expressed on the underlying character lists
so that it evaluates on concrete inputs. -/
def strStartsWith (s pre : String) : Bool :=
  s.data.take pre.data.length == pre.data

/-- `do_mount`: parse flags/options, then either resolve a `loop@` source via
the loop-device scan or mount directly (optionally waiting for the source
path first).  A direct-mount failure goes through
`ErrnoErrorIgnoreEnoent`; loop-path failures are plain errno errors. -/
def do_mount (env : Env) (fuel : Nat) (args : List String) : List Effect × Option BResult :=
  let p := parseMountArgs args
  let system := (args.get? 1).getD ""
  let source := (args.get? 2).getD ""
  let target := (args.get? 3).getD ""
  if strStartsWith source "loop@" then
    match env.backingOpenErrno with
    | some e => ([], some (BResult.errnoErr "open() failed" e))
    | none => loopMountScan env fuel 0 target system p.flags p.options
  else
    let pre := if p.waitFlag then [Effect.waitForFile source] else []
    match env.mountErrno with
    | some e =>
      (pre ++ [Effect.mount source target system p.flags p.options],
       some (errnoErrorIgnoreEnoent env e "mount() failed"))
    | none =>
      (pre ++ [Effect.mount source target system p.flags p.options], some BResult.ok)

/-- `reboot_into_recovery`: write the bootloader message (failure is a plain
error), then trigger an in-process shutdown when running as pid 1, else
request shutdown through the `sys.powerctl` property.

Modelled from the spec: `TriggerShutdown` (declared in `reboot.h`, which is
not under `src/`) is terminal — the spec states a recovery-reboot decision
"is terminal and intentionally does not return to the caller" — so a fired
shutdown trigger ends the modelled execution with `BResult.shutdown`. -/
def reboot_into_recovery (env : Env) (options : List String) : List Effect × BResult :=
  if env.writeBootloaderOk then
    if env.isPid1 then
      ([Effect.writeBootloaderMessage options, Effect.triggerShutdown "reboot,recovery"],
       BResult.shutdown "reboot,recovery")
    else
      ([Effect.writeBootloaderMessage options, Effect.setProperty "sys.powerctl" "reboot,recovery"],
       BResult.ok)
  else ([Effect.writeBootloaderMessage options], BResult.err "Failed to set bootloader message")

/-- The common body of the `FILE_ENCRYPTED`, `IS_METADATA_ENCRYPTED` and
`NEEDS_METADATA_ENCRYPTION` branches of `queue_fs_event` (the three source
branches are textually identical): unless this is a userdata-remount
re-entry, install the fscrypt keyring first; a failed install is a hard
error; then write the crypto properties and queue `nonencrypted`. -/
def queueFsEventFileBranch (env : Env) (userdata_remount : Bool) : List Effect × BResult :=
  if userdata_remount then
    ([Effect.setProperty "ro.crypto.state" "encrypted",
      Effect.setProperty "ro.crypto.type" "file",
      Effect.queueEventTrigger "nonencrypted"], BResult.ok)
  else
    if env.installKeyringOk then
      ([Effect.installKeyring,
        Effect.setProperty "ro.crypto.state" "encrypted",
        Effect.setProperty "ro.crypto.type" "file",
        Effect.queueEventTrigger "nonencrypted"], BResult.ok)
    else ([Effect.installKeyring], BResult.err "FscryptInstallKeyring() failed")

/-- `queue_fs_event`: the encryption state machine over the `fs_mgr_mount_all`
return code.  The `code > 0` fallthrough in the source constructs and
discards an `Error` value (no side effect) before reaching the final
generic invalid-code error, so both unexpected positive and negative codes
end in `Invalid code`. -/
def queue_fs_event (env : Env) (code : Int) (userdata_remount : Bool) : List Effect × BResult :=
  if code = FS_MGR_MNTALL_DEV_NEEDS_ENCRYPTION then
    if userdata_remount then
      ([Effect.triggerShutdown "reboot,requested-userdata-remount-on-fde-device"],
       BResult.shutdown "reboot,requested-userdata-remount-on-fde-device")
    else ([Effect.queueEventTrigger "encrypt"], BResult.ok)
  else if code = FS_MGR_MNTALL_DEV_MIGHT_BE_ENCRYPTED then
    if userdata_remount then
      ([Effect.triggerShutdown "reboot,requested-userdata-remount-on-fde-device"],
       BResult.shutdown "reboot,requested-userdata-remount-on-fde-device")
    else
      ([Effect.setProperty "ro.crypto.state" "encrypted",
        Effect.setProperty "ro.crypto.type" "block",
        Effect.queueEventTrigger "defaultcrypto"], BResult.ok)
  else if code = FS_MGR_MNTALL_DEV_NOT_ENCRYPTED then
    ([Effect.setProperty "ro.crypto.state" "unencrypted",
      Effect.queueEventTrigger "nonencrypted"], BResult.ok)
  else if code = FS_MGR_MNTALL_DEV_NOT_ENCRYPTABLE then
    ([Effect.setProperty "ro.crypto.state" "unsupported",
      Effect.queueEventTrigger "nonencrypted"], BResult.ok)
  else if code = FS_MGR_MNTALL_DEV_NEEDS_RECOVERY then
    if env.gsiRunning then ([], BResult.err "cannot wipe within GSI")
    else reboot_into_recovery env ["--wipe_data", "--reason=fs_mgr_mount_all"]
  else if code = FS_MGR_MNTALL_DEV_FILE_ENCRYPTED then
    queueFsEventFileBranch env userdata_remount
  else if code = FS_MGR_MNTALL_DEV_IS_METADATA_ENCRYPTED then
    queueFsEventFileBranch env userdata_remount
  else if code = FS_MGR_MNTALL_DEV_NEEDS_METADATA_ENCRYPTION then
    queueFsEventFileBranch env userdata_remount
  else
    ([], BResult.err ("Invalid code: " ++ toString code))

/-- The process-wide state retained across builtins: the module-level
`initial_mount_fstab_return_code` (initialised to the sentinel `-1`). -/
structure MountState where
  initial_mount_fstab_return_code : Int
  deriving Repr, DecidableEq

/-- The `--early` / `--late` suffix selection of `do_mount_all`: the source
loop runs from the last argument down to index 2, so the assignment made
last (the match at the lowest index, i.e. first in list order) determines
the boot-time property suffix. -/
def mountAllPropSuffix : List String → String
  | [] => "default"
  | a :: rest =>
    if a = "--early" then "early"
    else if a = "--late" then "late"
    else mountAllPropSuffix rest

/-- `do_mount_all`: read the fstab (failure is a hard error), run the external
`fs_mgr_mount_all` (its return code is the `fsMgrMountAllCode` oracle),
record the wall-clock duration into the boot-time property, and — unless
`--early` disabled event queueing — store the raw return code in the
process-wide state and run `queue_fs_event` on it.  The deferred
`import_late` step only feeds the external parser and is not part of the
modelled effects. -/
def do_mount_all (env : Env) (st : MountState) (args : List String) :
    MountState × List Effect × BResult :=
  let opt_args := args.drop 2
  let queue_event := !(opt_args.contains "--early")
  let prop_name := "ro.boottime.init.mount_all." ++ mountAllPropSuffix opt_args
  if env.readFstabOk then
    let code := env.fsMgrMountAllCode
    let timeEff := Effect.setProperty prop_name env.mountAllDuration
    if queue_event then
      let q := queue_fs_event env code false
      (MountState.mk code, timeEff :: q.fst,
        match q.snd with
        | BResult.err m => BResult.err ("queue_fs_event() failed: " ++ m)
        | r => r)
    else (st, [timeEff], BResult.ok)
  else (st, [], BResult.err "Could not read fstab")

/-- `do_remount_userdata`: fail explicitly if no `mount_all` has recorded an
outcome yet (sentinel `-1`); otherwise read the default fstab, remount
userdata into checkpointing (a negative return code triggers the fatal
shutdown), and re-run `queue_fs_event` on the recorded outcome with the
re-entry flag set.  Shutdown is terminal, as modelled in
`reboot_into_recovery`. -/
def do_remount_userdata (env : Env) (st : MountState) : List Effect × BResult :=
  if st.initial_mount_fstab_return_code = -1 then
    ([], BResult.err "Calling remount_userdata too early")
  else if env.readDefaultFstabOk then
    if env.remountUserdataRc < 0 then
      ([Effect.remountUserdataIntoCheckpointing,
        Effect.triggerShutdown "reboot,mount-userdata-failed"],
       BResult.shutdown "reboot,mount-userdata-failed")
    else
      let q := queue_fs_event env st.initial_mount_fstab_return_code true
      (Effect.remountUserdataIntoCheckpointing :: q.fst,
        match q.snd with
        | BResult.err m => BResult.err ("queue_fs_event() failed: " ++ m)
        | r => r)
  else ([], BResult.err "Failed to read fstab")

/-- A service as seen by the class controller: its name and its class tags
(the service objects themselves are externally owned). -/
structure Svc where
  name : String
  classnames : List String
  deriving Repr, DecidableEq

/-- The service loop of `do_class_start`: every service whose class-tag set
contains the class receives a `StartIfNotDisabled` call; an individual
failure is logged and the loop continues with the remaining services. -/
def classStartEffects (env : Env) (cls : String) : List Svc → List Effect
  | [] => []
  | s :: rest =>
    if s.classnames.contains cls then
      (Effect.startIfNotDisabled s.name ::
        (if env.startIfNotDisabledOk s.name then [] else [Effect.logStartFailure s.name]))
      ++ classStartEffects env cls rest
    else classStartEffects env cls rest

/-- `do_class_start`: a silent no-op when the per-class
`persist.init.dont_start_class.<class>` property is set; otherwise start
every matching service, always returning success. -/
def do_class_start (env : Env) (svcs : List Svc) (args : List String) : List Effect × BResult :=
  let cls := (args.get? 1).getD ""
  if env.getBoolProperty ("persist.init.dont_start_class." ++ cls) then ([], BResult.ok)
  else (classStartEffects env cls svcs, BResult.ok)

/-- `do_class_restart`: gated by the same per-class
`persist.init.dont_start_class.<class>` property as `do_class_start`;
otherwise `Restart` every matching service (via `ForEachServiceInClass`). -/
def do_class_restart (env : Env) (svcs : List Svc) (args : List String) : List Effect × BResult :=
  let cls := (args.get? 1).getD ""
  if env.getBoolProperty ("persist.init.dont_start_class." ++ cls) then ([], BResult.ok)
  else
    ((svcs.filter (fun s => s.classnames.contains cls)).map (fun s => Effect.restartService s.name),
     BResult.ok)

/-- The names of the services that received a `StartIfNotDisabled` call, in
order, extracted from an effect trace. -/
def startTargets (trace : List Effect) : List String :=
  trace.filterMap (fun e =>
    match e with
    | Effect.startIfNotDisabled n => some n
    | _ => none)

/-- `fs_mgr_dm_get_device_name`: on ioctl success, decode the packed device
number `(dev & 0xff) | ((dev >> 12) & 0xfff00)` into the block-device path
`"/dev/block/dm-<N>"`; on ioctl failure, no name is produced. -/
def fs_mgr_dm_get_device_name (ioctlOk : Bool) (rawDev : Nat) : Option String :=
  if ioctlOk then
    some ("/dev/block/dm-" ++ toString ((rawDev &&& 0xff) ||| ((rawDev >>> 12) &&& 0xfff00)))
  else none

/-- Recognise a shutdown-trigger effect. -/
def isShutdownEffect : Effect → Bool
  | Effect.triggerShutdown _ => true
  | _ => false

/-- Recognise a property-write effect. -/
def isSetPropertyEffect : Effect → Bool
  | Effect.setProperty _ _ => true
  | _ => false

/-- Recognise a kernel `mount` call effect. -/
def isMountEffect : Effect → Bool
  | Effect.mount _ _ _ _ _ => true
  | _ => false

/-- A concrete oracle environment: everything succeeds, not a GSI, pid 1,
log severity INFO, `fs_mgr_mount_all` returned `NOT_ENCRYPTED`, loop devices
0 and 1 bound and 2 blank, no per-class block property, and the start of
service `svcB` fails.  (Field order is documented on `Env`.) -/
def env0 : Env :=
  ⟨2, false, true, true, true, true, true, 1, "100", 0, none,
   fun _ => none, fun n => if n < 2 then none else some ENXIO, fun _ => true, none,
   fun _ => false, fun n => !(n == "svcB")⟩

/-- Like `env0` but binding a loop device (`LOOP_SET_FD`) always fails. -/
def env1 : Env :=
  ⟨2, false, true, true, true, true, true, 1, "100", 0, none,
   fun _ => none, fun n => if n < 2 then none else some ENXIO, fun _ => false, none,
   fun _ => false, fun n => !(n == "svcB")⟩

/-- Like `env0` but every `persist.init.dont_start_class.*` property reads
as set. -/
def env3 : Env :=
  ⟨2, false, true, true, true, true, true, 1, "100", 0, none,
   fun _ => none, fun n => if n < 2 then none else some ENXIO, fun _ => true, none,
   fun _ => true, fun n => !(n == "svcB")⟩

/-- Like `env0` but `FscryptInstallKeyring()` fails. -/
def env4 : Env :=
  ⟨2, false, true, true, false, true, true, 1, "100", 0, none,
   fun _ => none, fun n => if n < 2 then none else some ENXIO, fun _ => true, none,
   fun _ => false, fun n => !(n == "svcB")⟩

/-- Like `env0` but the `mount` syscall fails with ENOENT (and the minimum
log severity, INFO, is above DEBUG). -/
def env5 : Env :=
  ⟨2, false, true, true, true, true, true, 1, "100", 0, none,
   fun _ => none, fun n => if n < 2 then none else some ENXIO, fun _ => true, some ENOENT,
   fun _ => false, fun n => !(n == "svcB")⟩

/-- Like `env0` but the `mount` syscall fails with EACCES (13). -/
def env6 : Env :=
  ⟨2, false, true, true, true, true, true, 1, "100", 0, none,
   fun _ => none, fun n => if n < 2 then none else some ENXIO, fun _ => true, some 13,
   fun _ => false, fun n => !(n == "svcB")⟩

/-- Three concrete services: two tagged with class `"c"`, one not. -/
def svcs3 : List Svc :=
  [Svc.mk "svcA" ["c"], Svc.mk "svcB" ["c", "x"], Svc.mk "svcD" ["y"]]

/-- A `StartIfNotDisabled` effect contributes its service name to
`startTargets`. -/
theorem startTargets_cons_start (n : String) (t : List Effect) :
    startTargets (Effect.startIfNotDisabled n :: t) = n :: startTargets t := rfl

/-- A logged start failure contributes nothing to `startTargets`. -/
theorem startTargets_cons_log (n : String) (t : List Effect) :
    startTargets (Effect.logStartFailure n :: t) = startTargets t := rfl

/-- The `StartIfNotDisabled` targets of a class-start trace are exactly the
names of the services whose class-tag set contains the class, in service
order, whatever the individual start results are. -/
theorem startTargets_classStartEffects (env : Env) (cls : String) (svcs : List Svc) :
    startTargets (classStartEffects env cls svcs)
      = (svcs.filter (fun s => s.classnames.contains cls)).map Svc.name := by
  induction svcs with
  | nil => rfl
  | cons s rest ih =>
    by_cases hc : cls ∈ s.classnames
    · by_cases ho : env.startIfNotDisabledOk s.name <;>
        simp [classStartEffects, hc, ho, startTargets_cons_start, startTargets_cons_log, ih,
          List.filter_cons]
    · simp [classStartEffects, hc, ih, List.filter_cons]

/-- C9: for every raw packed device number returned by the `DM_DEV_STATUS`
query, `fs_mgr_dm_get_device_name` produces
`"/dev/block/dm-" ++ decimal((raw & 0xff) | ((raw >> 12) & 0xfff00))`;
in particular raw `0x1234` decodes to device number 52 and path
`"/dev/block/dm-52"`. -/
theorem dm_get_device_name_decode :
    (∀ rawDev : Nat, fs_mgr_dm_get_device_name true rawDev
      = some ("/dev/block/dm-" ++ toString ((rawDev &&& 0xff) ||| ((rawDev >>> 12) &&& 0xfff00))))
    ∧ fs_mgr_dm_get_device_name true 0x1234 = some "/dev/block/dm-52"
    ∧ (((0x1234 : Nat) &&& 0xff) ||| (((0x1234 : Nat) >>> 12) &&& 0xfff00)) = 52 :=
  ⟨fun _ => rfl, by decide, by decide⟩

/-- C10: `class_restart` is gated by the same per-class
`persist.init.dont_start_class.<class>` property as `class_start`: when the
property is set the command issues no `Restart` call to any service and
returns success. -/
theorem class_restart_gate (env : Env) (svcs : List Svc) (cls : String)
    (h : env.getBoolProperty ("persist.init.dont_start_class." ++ cls) = true) :
    do_class_restart env svcs ["class_restart", cls] = ([], BResult.ok) := by
  simp [do_class_restart, h]

/-- Witness for `class_restart_gate` at a concrete environment with the
property set and three concrete services. -/
theorem class_restart_gate_check :
    do_class_restart env3 svcs3 ["class_restart", "c"] = ([], BResult.ok) :=
  class_restart_gate env3 svcs3 "c" rfl

/-- C7: `class_start` with class `C` is a complete no-op returning success
when `persist.init.dont_start_class.C` is set; when it is unset, every
service whose class-tag set contains `C` receives a `StartIfNotDisabled`
call (individual failures are logged but do not stop the iteration, which
is why the call list does not depend on the start results) and the command
returns success. -/
theorem class_start_gate_and_iteration (env : Env) (svcs : List Svc) (cls : String) :
    (env.getBoolProperty ("persist.init.dont_start_class." ++ cls) = true →
      do_class_start env svcs ["class_start", cls] = ([], BResult.ok))
    ∧ (env.getBoolProperty ("persist.init.dont_start_class." ++ cls) = false →
      startTargets (do_class_start env svcs ["class_start", cls]).fst
        = (svcs.filter (fun s => s.classnames.contains cls)).map Svc.name
      ∧ (do_class_start env svcs ["class_start", cls]).snd = BResult.ok) := by
  constructor
  · intro h
    simp [do_class_start, h]
  · intro h
    refine ⟨?_, ?_⟩ <;> simp [do_class_start, h, startTargets_classStartEffects]

/-- Witness for `class_start_gate_and_iteration`: with the block property set
the command is a no-op; with it unset (and the start of `svcB` failing) all
matching services, `svcA` and `svcB`, are still attempted. -/
theorem class_start_gate_and_iteration_check :
    do_class_start env3 svcs3 ["class_start", "c"] = ([], BResult.ok)
    ∧ startTargets (do_class_start env0 svcs3 ["class_start", "c"]).fst = ["svcA", "svcB"] := by
  have hgate := (class_start_gate_and_iteration env3 svcs3 "c").1 rfl
  have hrun := (class_start_gate_and_iteration env0 svcs3 "c").2 rfl
  exact ⟨hgate, hrun.1.trans (by decide)⟩

/-- C1: for every one of the nine enumerated `FsMountOutcome` codes,
`queue_fs_event` (outside a userdata-remount re-entry, with the keyring
install succeeding, no GSI running, and the bootloader write succeeding in
init) performs exactly the property writes and queues exactly the event of
the spec's outcome table, and for every integer code outside the enumerated
set — any negative code or an unexpected positive code — it returns the
generic Invalid-code error with no property write and no event queued; the
mapping is total with no silent fallthrough. -/
theorem queue_fs_event_outcome_table (env : Env) (code : Int) (b : Bool)
    (hg : env.gsiRunning = false) (hw : env.writeBootloaderOk = true)
    (hp : env.isPid1 = true) (hk : env.installKeyringOk = true)
    (hc : code < 0 ∨ 7 < code) :
    queue_fs_event env FS_MGR_MNTALL_DEV_NEEDS_ENCRYPTION false
      = ([Effect.queueEventTrigger "encrypt"], BResult.ok)
    ∧ queue_fs_event env FS_MGR_MNTALL_DEV_MIGHT_BE_ENCRYPTED false
      = ([Effect.setProperty "ro.crypto.state" "encrypted",
          Effect.setProperty "ro.crypto.type" "block",
          Effect.queueEventTrigger "defaultcrypto"], BResult.ok)
    ∧ queue_fs_event env FS_MGR_MNTALL_DEV_NOT_ENCRYPTED false
      = ([Effect.setProperty "ro.crypto.state" "unencrypted",
          Effect.queueEventTrigger "nonencrypted"], BResult.ok)
    ∧ queue_fs_event env FS_MGR_MNTALL_DEV_NOT_ENCRYPTABLE false
      = ([Effect.setProperty "ro.crypto.state" "unsupported",
          Effect.queueEventTrigger "nonencrypted"], BResult.ok)
    ∧ queue_fs_event env FS_MGR_MNTALL_DEV_NEEDS_RECOVERY false
      = ([Effect.writeBootloaderMessage ["--wipe_data", "--reason=fs_mgr_mount_all"],
          Effect.triggerShutdown "reboot,recovery"], BResult.shutdown "reboot,recovery")
    ∧ queue_fs_event env FS_MGR_MNTALL_DEV_FILE_ENCRYPTED false
      = ([Effect.installKeyring,
          Effect.setProperty "ro.crypto.state" "encrypted",
          Effect.setProperty "ro.crypto.type" "file",
          Effect.queueEventTrigger "nonencrypted"], BResult.ok)
    ∧ queue_fs_event env FS_MGR_MNTALL_DEV_IS_METADATA_ENCRYPTED false
      = ([Effect.installKeyring,
          Effect.setProperty "ro.crypto.state" "encrypted",
          Effect.setProperty "ro.crypto.type" "file",
          Effect.queueEventTrigger "nonencrypted"], BResult.ok)
    ∧ queue_fs_event env FS_MGR_MNTALL_DEV_NEEDS_METADATA_ENCRYPTION false
      = ([Effect.installKeyring,
          Effect.setProperty "ro.crypto.state" "encrypted",
          Effect.setProperty "ro.crypto.type" "file",
          Effect.queueEventTrigger "nonencrypted"], BResult.ok)
    ∧ queue_fs_event env code b
      = ([], BResult.err ("Invalid code: " ++ toString code)) := by
  have h0 : code ≠ 0 := by omega
  have h1 : code ≠ 1 := by omega
  have h2 : code ≠ 2 := by omega
  have h3 : code ≠ 3 := by omega
  have h4 : code ≠ 4 := by omega
  have h5 : code ≠ 5 := by omega
  have h6 : code ≠ 6 := by omega
  have h7 : code ≠ 7 := by omega
  refine ⟨?_, ?_, ?_, ?_, ?_, ?_, ?_, ?_, ?_⟩ <;>
    simp [queue_fs_event, queueFsEventFileBranch, reboot_into_recovery,
      FS_MGR_MNTALL_DEV_NEEDS_ENCRYPTION, FS_MGR_MNTALL_DEV_MIGHT_BE_ENCRYPTED,
      FS_MGR_MNTALL_DEV_NOT_ENCRYPTED, FS_MGR_MNTALL_DEV_NOT_ENCRYPTABLE,
      FS_MGR_MNTALL_DEV_NEEDS_RECOVERY, FS_MGR_MNTALL_DEV_FILE_ENCRYPTED,
      FS_MGR_MNTALL_DEV_IS_METADATA_ENCRYPTED, FS_MGR_MNTALL_DEV_NEEDS_METADATA_ENCRYPTION,
      hg, hw, hp, hk, h0, h1, h2, h3, h4, h5, h6, h7]

/-- Witness for `queue_fs_event_outcome_table` at the concrete environment
`env0` and the out-of-range code `-9`. -/
theorem queue_fs_event_outcome_table_check :
    queue_fs_event env0 FS_MGR_MNTALL_DEV_NOT_ENCRYPTED false
      = ([Effect.setProperty "ro.crypto.state" "unencrypted",
          Effect.queueEventTrigger "nonencrypted"], BResult.ok)
    ∧ queue_fs_event env0 (-9) true
      = ([], BResult.err ("Invalid code: " ++ toString (-9 : Int))) := by
  have h := queue_fs_event_outcome_table env0 (-9) true rfl rfl rfl rfl (Or.inl (by decide))
  exact ⟨h.2.2.1, h.2.2.2.2.2.2.2.2⟩

/-- C5: for the `FILE_ENCRYPTED`, `IS_METADATA_ENCRYPTED` and
`NEEDS_METADATA_ENCRYPTION` outcomes, `queue_fs_event` installs the
decryption keyring first — before any property write or event — unless the
invocation is a userdata-remount re-entry, in which case the keyring install
is skipped; if the keyring install fails the operation returns a hard error
with no property written and no event queued. -/
theorem queue_fs_event_keyring_first (env : Env) (code : Int)
    (hcode : code = FS_MGR_MNTALL_DEV_FILE_ENCRYPTED
      ∨ code = FS_MGR_MNTALL_DEV_IS_METADATA_ENCRYPTED
      ∨ code = FS_MGR_MNTALL_DEV_NEEDS_METADATA_ENCRYPTION) :
    (env.installKeyringOk = true →
      queue_fs_event env code false
        = ([Effect.installKeyring,
            Effect.setProperty "ro.crypto.state" "encrypted",
            Effect.setProperty "ro.crypto.type" "file",
            Effect.queueEventTrigger "nonencrypted"], BResult.ok))
    ∧ (env.installKeyringOk = false →
      queue_fs_event env code false
        = ([Effect.installKeyring], BResult.err "FscryptInstallKeyring() failed"))
    ∧ queue_fs_event env code true
      = ([Effect.setProperty "ro.crypto.state" "encrypted",
          Effect.setProperty "ro.crypto.type" "file",
          Effect.queueEventTrigger "nonencrypted"], BResult.ok) := by
  rcases hcode with h | h | h <;> subst h <;>
    refine ⟨fun hk => ?_, fun hk => ?_, ?_⟩ <;>
    simp [queue_fs_event, queueFsEventFileBranch,
      FS_MGR_MNTALL_DEV_FILE_ENCRYPTED, FS_MGR_MNTALL_DEV_IS_METADATA_ENCRYPTED,
      FS_MGR_MNTALL_DEV_NEEDS_METADATA_ENCRYPTION, FS_MGR_MNTALL_DEV_NEEDS_ENCRYPTION,
      FS_MGR_MNTALL_DEV_MIGHT_BE_ENCRYPTED, FS_MGR_MNTALL_DEV_NOT_ENCRYPTED,
      FS_MGR_MNTALL_DEV_NOT_ENCRYPTABLE, FS_MGR_MNTALL_DEV_NEEDS_RECOVERY, *]

/-- Witness for `queue_fs_event_keyring_first`: keyring install succeeding
(`env0`), failing (`env4`), and skipped on re-entry. -/
theorem queue_fs_event_keyring_first_check :
    queue_fs_event env0 FS_MGR_MNTALL_DEV_FILE_ENCRYPTED false
      = ([Effect.installKeyring,
          Effect.setProperty "ro.crypto.state" "encrypted",
          Effect.setProperty "ro.crypto.type" "file",
          Effect.queueEventTrigger "nonencrypted"], BResult.ok)
    ∧ queue_fs_event env4 FS_MGR_MNTALL_DEV_FILE_ENCRYPTED false
      = ([Effect.installKeyring], BResult.err "FscryptInstallKeyring() failed")
    ∧ queue_fs_event env0 FS_MGR_MNTALL_DEV_FILE_ENCRYPTED true
      = ([Effect.setProperty "ro.crypto.state" "encrypted",
          Effect.setProperty "ro.crypto.type" "file",
          Effect.queueEventTrigger "nonencrypted"], BResult.ok) := by
  have ha := queue_fs_event_keyring_first env0 FS_MGR_MNTALL_DEV_FILE_ENCRYPTED (Or.inl rfl)
  have hb := queue_fs_event_keyring_first env4 FS_MGR_MNTALL_DEV_FILE_ENCRYPTED (Or.inl rfl)
  exact ⟨ha.1 rfl, hb.2.1 rfl, ha.2.2⟩

/-- C2 (counterexample): on a re-entrant `remount_userdata` invocation whose
recorded outcome is `NEEDS_ENCRYPTION`, the command is not mount-free: its
first effect is the userdata remount into checkpointing
(`fs_mgr_remount_userdata_into_checkpointing`), performed unconditionally
before the recorded outcome is even consulted, and only then does fatal
escalation fire.  This refutes the claim that no mount is performed. -/
theorem remount_userdata_performs_checkpoint_remount :
    do_remount_userdata env0 (MountState.mk FS_MGR_MNTALL_DEV_NEEDS_ENCRYPTION)
      = ([Effect.remountUserdataIntoCheckpointing,
          Effect.triggerShutdown "reboot,requested-userdata-remount-on-fde-device"],
         BResult.shutdown "reboot,requested-userdata-remount-on-fde-device")
    ∧ (do_remount_userdata env0 (MountState.mk FS_MGR_MNTALL_DEV_NEEDS_ENCRYPTION)).fst.contains
        Effect.remountUserdataIntoCheckpointing = true := by
  constructor <;> decide

/-- C2 (amended): on a re-entrant `remount_userdata` invocation whose recorded
outcome is `NEEDS_ENCRYPTION` (and whose fstab read succeeds), the userdata
checkpointing remount is still invoked first, but apart from it no kernel
mount is issued, fatal escalation fires the shutdown trigger exactly once,
and no property is ever written (in particular none before the shutdown
fires). -/
theorem remount_userdata_needs_encryption_escalation (env : Env) (st : MountState)
    (hcode : st.initial_mount_fstab_return_code = FS_MGR_MNTALL_DEV_NEEDS_ENCRYPTION)
    (hfstab : env.readDefaultFstabOk = true) :
    (do_remount_userdata env st).fst.countP isShutdownEffect = 1
    ∧ (do_remount_userdata env st).fst.countP isSetPropertyEffect = 0
    ∧ (do_remount_userdata env st).fst.countP isMountEffect = 0
    ∧ (do_remount_userdata env st).fst.head? = some Effect.remountUserdataIntoCheckpointing
    ∧ ∃ r, (do_remount_userdata env st).snd = BResult.shutdown r := by
  by_cases hrc : env.remountUserdataRc < 0 <;>
    simp [do_remount_userdata, hcode, hfstab, hrc, queue_fs_event,
      FS_MGR_MNTALL_DEV_NEEDS_ENCRYPTION, isShutdownEffect, isSetPropertyEffect,
      isMountEffect, List.countP_cons]

/-- Witness for `remount_userdata_needs_encryption_escalation` at `env0` and
the recorded outcome 3 (`NEEDS_ENCRYPTION`). -/
theorem remount_userdata_needs_encryption_escalation_check :
    (do_remount_userdata env0 (MountState.mk 3)).fst.countP isShutdownEffect = 1
    ∧ (do_remount_userdata env0 (MountState.mk 3)).fst.countP isSetPropertyEffect = 0 := by
  have h := remount_userdata_needs_encryption_escalation env0 (MountState.mk 3) rfl rfl
  exact ⟨h.1, h.2.1⟩

/-- C8: the process-wide last-fstab-outcome value starts at the sentinel `-1`;
`remount_userdata` fails with an explicit error (and performs nothing) when
the sentinel is still in place, and `mount_all` records the raw
`fs_mgr_mount_all` return code exactly when it queues the fs event (i.e.
not in `--early` mode, where the state is left untouched). -/
theorem fstab_outcome_single_writer_reader (env : Env) (st : MountState) (args : List String) :
    (st.initial_mount_fstab_return_code = -1 →
      do_remount_userdata env st = ([], BResult.err "Calling remount_userdata too early"))
    ∧ (env.readFstabOk = true →
      ("--early" ∉ args.drop 2 →
        (do_mount_all env st args).fst = MountState.mk env.fsMgrMountAllCode)
      ∧ ("--early" ∈ args.drop 2 →
        (do_mount_all env st args).fst = st)) := by
  refine ⟨fun h => ?_, fun hr => ⟨fun hq => ?_, fun hq => ?_⟩⟩
  · simp [do_remount_userdata, h]
  · simp [do_mount_all, hr, hq]
  · simp [do_mount_all, hr, hq]

/-- Witness for `fstab_outcome_single_writer_reader`: with the sentinel still
in place `remount_userdata` errors out, and a default-mode `mount_all`
records the outcome code. -/
theorem fstab_outcome_single_writer_reader_check :
    do_remount_userdata env0 (MountState.mk (-1))
      = ([], BResult.err "Calling remount_userdata too early")
    ∧ (do_mount_all env0 (MountState.mk (-1)) ["mount_all", "/etc/fstab"]).fst
      = MountState.mk env0.fsMgrMountAllCode := by
  have h := fstab_outcome_single_writer_reader env0 (MountState.mk (-1)) ["mount_all", "/etc/fstab"]
  exact ⟨h.1 rfl, (h.2 rfl).1 (by decide)⟩

/-- C3 (counterexample): a non-final argument that matches no flag-table
entry and is not `wait` (`"bogus"` below, followed by `"ro"`) does NOT make
the command an error: `do_mount` silently ignores it and the mount succeeds
with only the matched flags.  This refutes the claim that an unmatched
non-final token is an error. -/
theorem do_mount_nonfinal_unknown_token_not_error :
    do_mount env0 1 ["mount", "ext4", "/dev/foo", "/mnt/foo", "bogus", "ro"]
      = ([Effect.mount "/dev/foo" "/mnt/foo" "ext4" MS_RDONLY none], some BResult.ok)
    ∧ parseMountArgs ["mount", "ext4", "/dev/foo", "/mnt/foo", "bogus", "ro"]
      = MountParse.mk none MS_RDONLY false := by
  constructor <;> decide

/-- C3 (amended): after the (type, source, target) triple, matched flag
tokens combine by bitwise OR — `["noatime", "ro", "rec"]` yields exactly
`MS_NOATIME ||| MS_RDONLY ||| MS_REC` — a final argument matching no flag
entry and different from `wait` becomes the free-form option string
verbatim, and a non-final such argument is silently ignored (it is not an
error and leaves flags, options and the wait modifier unchanged). -/
theorem mount_flag_parsing_amended (ty src tgt tok : String) (acc : MountParse)
    (rest : List String)
    (hfind : List.find? (fun p => p.fst == tok) mount_flags = none)
    (hwait : tok ≠ "wait") :
    parseMountArgs ["mount", ty, src, tgt, "noatime", "ro", "rec"]
      = MountParse.mk none (MS_NOATIME ||| MS_RDONLY ||| MS_REC) false
    ∧ parseMountGo [tok] acc = MountParse.mk (some tok) acc.flags acc.waitFlag
    ∧ (rest ≠ [] → parseMountGo (tok :: rest) acc = parseMountGo rest acc) := by
  refine ⟨?_, ?_, fun hrest => ?_⟩
  · rfl
  · simp [parseMountGo, hfind, hwait]
  · simp [parseMountGo, hfind, hwait, hrest]

/-- Witness for `mount_flag_parsing_amended` at the concrete unmatched token
`"bogus"`. -/
theorem mount_flag_parsing_amended_check :
    parseMountArgs ["mount", "ext4", "/dev/foo", "/mnt", "noatime", "ro", "rec"]
      = MountParse.mk none (MS_NOATIME ||| MS_RDONLY ||| MS_REC) false
    ∧ parseMountGo ["bogus"] (MountParse.mk none 0 false)
      = MountParse.mk (some "bogus") 0 false
    ∧ parseMountGo ["bogus", "ro"] (MountParse.mk none 0 false)
      = parseMountGo ["ro"] (MountParse.mk none 0 false) := by
  have h := mount_flag_parsing_amended "ext4" "/dev/foo" "/mnt" "bogus"
    (MountParse.mk none 0 false) ["ro"] (by decide) (by decide)
  exact ⟨h.1, h.2.1, h.2.2 (by decide)⟩

/-- C6: on a direct (non-`loop@`) mount whose `mount` syscall fails with
errno `e`, `do_mount` returns the empty, ignorable success result when `e`
is ENOENT and the minimum log severity is above DEBUG, and an error
carrying the errno value in every other case (any other errno, or ENOENT at
severity DEBUG or lower). -/
theorem do_mount_enoent_suppression (env : Env) (fuel : Nat) (args : List String) (e : Nat)
    (hsrc : strStartsWith (args[2]?.getD "") "loop@" = false)
    (hm : env.mountErrno = some e) :
    ((e = ENOENT ∧ DEBUG_SEVERITY < env.minLogSeverity) →
      (do_mount env fuel args).snd = some BResult.ok)
    ∧ (¬ (e = ENOENT ∧ DEBUG_SEVERITY < env.minLogSeverity) →
      (do_mount env fuel args).snd = some (BResult.errnoErr "mount() failed" e)) := by
  constructor <;> intro h <;>
    simp [do_mount, hsrc, hm, errnoErrorIgnoreEnoent, h]

/-- Witness for `do_mount_enoent_suppression`: ENOENT at INFO severity is
suppressed into a success result (`env5`); EACCES is reported as an errno
error (`env6`). -/
theorem do_mount_enoent_suppression_check :
    (do_mount env5 1 ["mount", "ext4", "/dev/nodev", "/mnt"]).snd = some BResult.ok
    ∧ (do_mount env6 1 ["mount", "ext4", "/dev/nodev", "/mnt"]).snd
      = some (BResult.errnoErr "mount() failed" 13) := by
  have ha := do_mount_enoent_suppression env5 1 ["mount", "ext4", "/dev/nodev", "/mnt"]
    ENOENT (by decide) rfl
  have hb := do_mount_enoent_suppression env6 1 ["mount", "ext4", "/dev/nodev", "/mnt"]
    13 (by decide) rfl
  exact ⟨ha.1 ⟨rfl, by decide⟩, hb.2 (by decide)⟩

/-- C4: with loop devices 0 and 1 already bound (their status queries
succeed) and device 2 blank (status query fails with ENXIO), the `loop@`
scan selects device 2, binds it with `LOOP_SET_FD`, and only after the
successful bind issues the mount with `/dev/block/loop2` as source; in an
otherwise identical environment where the bind on device 2 fails, no mount
is attempted on that device — the scan moves on without mounting. -/
theorem loop_mount_first_unbound_device (env env' : Env)
    (target system : String) (flags : Nat) (options : Option String)
    (h0 : env.loopOpenErrno 0 = none) (h1 : env.loopOpenErrno 1 = none)
    (h2 : env.loopOpenErrno 2 = none)
    (hs0 : env.loopStatusErrno 0 = none) (hs1 : env.loopStatusErrno 1 = none)
    (hs2 : env.loopStatusErrno 2 = some ENXIO)
    (hb : env.loopSetFdOk 2 = true) (hm : env.mountErrno = none)
    (h0' : env'.loopOpenErrno 0 = none) (h1' : env'.loopOpenErrno 1 = none)
    (h2' : env'.loopOpenErrno 2 = none)
    (hs0' : env'.loopStatusErrno 0 = none) (hs1' : env'.loopStatusErrno 1 = none)
    (hs2' : env'.loopStatusErrno 2 = some ENXIO)
    (hb' : env'.loopSetFdOk 2 = false) :
    loopMountScan env 3 0 target system flags options
      = ([Effect.loopOpen 0, Effect.loopGetStatus 0,
          Effect.loopOpen 1, Effect.loopGetStatus 1,
          Effect.loopOpen 2, Effect.loopGetStatus 2, Effect.loopSetFd 2,
          Effect.mount "/dev/block/loop2" target system flags options], some BResult.ok)
    ∧ loopMountScan env' 3 0 target system flags options
      = ([Effect.loopOpen 0, Effect.loopGetStatus 0,
          Effect.loopOpen 1, Effect.loopGetStatus 1,
          Effect.loopOpen 2, Effect.loopGetStatus 2, Effect.loopSetFd 2], none) := by
  have hpath : "/dev/block/loop" ++ toString 2 = "/dev/block/loop2" := by decide
  constructor
  · simp [loopMountScan, h0, h1, h2, hs0, hs1, hs2, hb, hm, hpath]
  · simp [loopMountScan, h0', h1', h2', hs0', hs1', hs2', hb']

/-- Witness for `loop_mount_first_unbound_device`: `env0` has devices 0 and 1
bound, device 2 blank and binds succeeding; `env1` is identical except every
bind fails. -/
theorem loop_mount_first_unbound_device_check :
    loopMountScan env0 3 0 "/mnt/sd" "vfat" 1 none
      = ([Effect.loopOpen 0, Effect.loopGetStatus 0,
          Effect.loopOpen 1, Effect.loopGetStatus 1,
          Effect.loopOpen 2, Effect.loopGetStatus 2, Effect.loopSetFd 2,
          Effect.mount "/dev/block/loop2" "/mnt/sd" "vfat" 1 none], some BResult.ok)
    ∧ loopMountScan env1 3 0 "/mnt/sd" "vfat" 1 none
      = ([Effect.loopOpen 0, Effect.loopGetStatus 0,
          Effect.loopOpen 1, Effect.loopGetStatus 1,
          Effect.loopOpen 2, Effect.loopGetStatus 2, Effect.loopSetFd 2], none) :=
  loop_mount_first_unbound_device env0 env1 "/mnt/sd" "vfat" 1 none
    rfl rfl rfl (by decide) (by decide) (by decide) rfl rfl
    rfl rfl rfl (by decide) (by decide) (by decide) rfl

end InitCore
